import Mathlib

/-!
Shallow embedding of the container pick-list reconciliation engine
(src/main.py): the data model (REQUESTS rows, REQUESTS_HISTORY rows),
the scheduled cleanup pass (automated_container_cleanup), the manual
cleanup variant (manual_container_cleanup), the audit writer
(log_request_to_history), the manual-deletion endpoint (delete_request),
and the global req_id counter used by the request-submission endpoints.

External collaborators (the ERP location oracle and the success or
failure of a history insert) are modelled as a fixed environment of
functions; the two database tables are explicit lists.  Timestamps are
UTC instants in whole seconds, carried as Int.
-/

/-- One row of the REQUESTS table, as fetched by the cleanup passes
(SELECT req_id, serial_no, part_no, revision, quantity, location,
deliver_to, req_time, request_type FROM REQUESTS). -/
structure ActiveRequest where
  req_id : Nat
  serial_no : String
  part_no : String
  revision : String
  quantity : Int
  location : String
  deliver_to : String
  req_time : Int
  request_type : String
deriving Repr, DecidableEq

/-- One row of the REQUESTS_HISTORY table, exactly the columns inserted
by log_request_to_history. -/
structure HistoryRecord where
  req_id : Nat
  serial_no : String
  part_no : String
  revision : String
  quantity : Int
  location : String
  deliver_to : String
  req_time : Int
  fulfilled_time : Int
  fulfillment_duration_minutes : Int
  fulfillment_type : String
  current_location : String
  request_type : String
deriving Repr, DecidableEq

/-- The two database tables the engine reads and mutates. -/
structure DbState where
  requests : List ActiveRequest
  history : List HistoryRecord
deriving Repr, DecidableEq

/-- The external world fixed for the duration of a pass: the production
location list returned by get_prod_locations, the per-serial location
lookup behind check_container_current_location, and whether the history
INSERT for a given request and observed location succeeds
(log_request_to_history returns True) or fails (returns False). -/
structure Env where
  prod_locations : List String
  locationOf : String → Option String
  historyWriteOk : ActiveRequest → String → Bool

/-- check_container_current_location: query the ERP for a container by
serial number; any failure or missing row yields none. -/
def check_container_current_location (env : Env) (serial_no : String) :
    Option String :=
  env.locationOf serial_no

/-- The history row built by log_request_to_history: fulfilled_time is
the current UTC instant and fulfillment_duration_minutes is
int((fulfilled_time - req_time).total_seconds() / 60), a truncating
division, hence Int.tdiv. -/
def log_request_to_history_record (r : ActiveRequest)
    (current_location fulfillment_type : String) (fulfilled_time : Int) :
    HistoryRecord :=
  { req_id := r.req_id
    serial_no := r.serial_no
    part_no := r.part_no
    revision := r.revision
    quantity := r.quantity
    location := r.location
    deliver_to := r.deliver_to
    req_time := r.req_time
    fulfilled_time := fulfilled_time
    fulfillment_duration_minutes := Int.tdiv (fulfilled_time - r.req_time) 60
    fulfillment_type := fulfillment_type
    current_location := current_location
    request_type := r.request_type }

/-- A flagged container: the request together with the observed location
that placed it in the production set (one entry of containers_to_remove). -/
structure Candidate where
  req : ActiveRequest
  current_location : String
deriving Repr, DecidableEq

/-- Per-request candidate test of the cleanup loops: PUT_BACK rows are
skipped; a failed lookup, a falsy (empty) location, or a location outside
the production list leaves the row alone; otherwise the row is flagged. -/
def candidate_of (env : Env) (r : ActiveRequest) : Option Candidate :=
  if r.request_type == "PUT_BACK" then none
  else
    match check_container_current_location env r.serial_no with
    | none => none
    | some loc =>
      if loc == "" then none
      else if env.prod_locations.contains loc then some ⟨r, loc⟩
      else none

/-- containers_to_remove: the candidate list accumulated over the fetched
requests, in fetch order. -/
def candidates (env : Env) (reqs : List ActiveRequest) : List Candidate :=
  reqs.filterMap (candidate_of env)

/-- Outcome of the retirement loop over the candidate list. -/
structure RetireResult where
  requests : List ActiveRequest
  newHistory : List HistoryRecord
  deleted : List Nat
  errors : List String
deriving Repr, DecidableEq

/-- The retirement loop shared by both cleanup paths: for each candidate,
write the history row first and, only if that write succeeded, execute
DELETE FROM REQUESTS WHERE req_id = the candidate id; a failed write
leaves the row in place and records a per-item error message. -/
def retire_loop (env : Env) (now : Int) (fulfillment_type : String) :
    List Candidate → List ActiveRequest → RetireResult
  | [], reqs => { requests := reqs, newHistory := [], deleted := [], errors := [] }
  | c :: cs, reqs =>
    if env.historyWriteOk c.req c.current_location then
      let rest := retire_loop env now fulfillment_type cs
        (reqs.filter (fun r => !(r.req_id == c.req.req_id)))
      { requests := rest.requests
        newHistory :=
          log_request_to_history_record c.req c.current_location
            fulfillment_type now :: rest.newHistory
        deleted := c.req.req_id :: rest.deleted
        errors := rest.errors }
    else
      let rest := retire_loop env now fulfillment_type cs reqs
      { rest with
          errors :=
            ("Failed to log container " ++ c.req.serial_no ++
              " to history, skipping deletion") :: rest.errors }

/-- Per-removed-item summary carried by the completion notification. -/
structure RemovedSummary where
  serial_no : String
  current_location : String
  deliver_to : String
deriving Repr, DecidableEq

/-- Events pushed through send_cleanup_notification by the scheduled
pass: the completion notification, and the error notification sent from
the top-level exception handler. -/
inductive Event where
  | auto_cleanup_complete (checked_requests : Nat) (removed_containers : Nat)
      (containers_removed : List RemovedSummary)
  | auto_cleanup_error (error : String)
deriving Repr, DecidableEq

/-- The containers_removed entry built for one candidate. -/
def summary_of (c : Candidate) : RemovedSummary :=
  { serial_no := c.req.serial_no
    current_location := c.current_location
    deliver_to := c.req.deliver_to }

/-- Result of one scheduled pass: the mutated tables, the notifications
actually sent, and the req_ids whose DELETE statements were executed. -/
structure PassResult where
  state : DbState
  events : List Event
  deleted : List Nat
deriving Repr, DecidableEq

/-- The scheduled pass automated_container_cleanup: abort silently when
the production-location fetch yields nothing; otherwise evaluate every
fetched request, and if any containers were flagged, abort silently when
more than 10 were (the safety check), else run the retirement loop.  The
completion notification reports the fetched count and, as removed count
and removed list, the full candidate list, whether or not each paired
delete actually ran. -/
def automated_container_cleanup (env : Env) (now : Int) (st : DbState) :
    PassResult :=
  if env.prod_locations.isEmpty then
    { state := st, events := [], deleted := [] }
  else if (candidates env st.requests).isEmpty then
    { state := st
      events := [Event.auto_cleanup_complete st.requests.length 0 []]
      deleted := [] }
  else if 10 < (candidates env st.requests).length then
    { state := st, events := [], deleted := [] }
  else
    { state :=
        { requests :=
            (retire_loop env now "auto_cleanup" (candidates env st.requests)
              st.requests).requests
          history :=
            st.history ++
              (retire_loop env now "auto_cleanup" (candidates env st.requests)
                st.requests).newHistory }
      events := [Event.auto_cleanup_complete st.requests.length
                  (candidates env st.requests).length
                  ((candidates env st.requests).map summary_of)]
      deleted :=
        (retire_loop env now "auto_cleanup" (candidates env st.requests)
          st.requests).deleted }

/-- The structured result returned by manual_container_cleanup. -/
structure ManualCleanupResult where
  status : String
  checked_requests : Nat
  removed_containers : Nat
  prod_locations : List String
  containers_removed : List Candidate
  errors : List String
deriving Repr, DecidableEq

/-- The on-demand variant manual_container_cleanup: same candidate
evaluation and the same history-before-delete retirement loop, but with
no candidate-count safety check and no abort on an empty production
list; per-item history failures are accumulated into the returned
errors.  removed_containers and containers_removed again report the full
candidate list. -/
def manual_container_cleanup (env : Env) (now : Int) (st : DbState) :
    ManualCleanupResult × DbState :=
  ({ status := "success"
     checked_requests := st.requests.length
     removed_containers := (candidates env st.requests).length
     prod_locations := env.prod_locations
     containers_removed := candidates env st.requests
     errors :=
       (retire_loop env now "manual_cleanup" (candidates env st.requests)
         st.requests).errors },
   { requests :=
       (retire_loop env now "manual_cleanup" (candidates env st.requests)
         st.requests).requests
     history :=
       st.history ++
         (retire_loop env now "manual_cleanup" (candidates env st.requests)
           st.requests).newHistory })

/-- Outcome of the manual-deletion endpoint. -/
inductive DeleteOutcome where
  | notFound
  | deletedReq (history_logged : Bool)
deriving Repr, DecidableEq

/-- The manual-deletion endpoint delete_request: look the serial up, 404
when absent; otherwise attempt the history write with fulfillment_type
manual_delete and the sentinel observed location, then execute
DELETE FROM REQUESTS WHERE serial_no = the serial whether or not the
write succeeded (the source logs a warning and proceeds with deletion). -/
def delete_request (env : Env) (now : Int) (st : DbState)
    (serial_no : String) : DbState × DeleteOutcome :=
  match st.requests.find? (fun r => r.serial_no == serial_no) with
  | none => (st, DeleteOutcome.notFound)
  | some r =>
    let logged := env.historyWriteOk r "Unknown (Manual Delete)"
    let hist :=
      if logged then
        st.history ++
          [log_request_to_history_record r "Unknown (Manual Delete)"
            "manual_delete" now]
      else st.history
    ({ requests := st.requests.filter (fun x => !(x.serial_no == serial_no))
       history := hist },
     DeleteOutcome.deletedReq logged)

/-- The id-assignment state of the request-submission endpoints: the
module-level counter (req_id = 0, incremented in memory after each
successful INSERT) together with the persisted (req_id, serial_no) rows. -/
structure IdProcState where
  counter : Nat
  table : List (Nat × String)
deriving Repr, DecidableEq

/-- Process start: the table persists in the database, the module-level
counter is re-initialized to 0. -/
def process_start (table : List (Nat × String)) : IdProcState :=
  { counter := 0, table := table }

/-- One submission (request_serial_no or request_master_unit): the row is
inserted with the current counter value, and the counter is incremented
only when the INSERT reports one affected row. -/
def submit_request (ps : IdProcState) (serial_no : String)
    (insert_ok : Bool) : IdProcState :=
  if insert_ok then
    { counter := ps.counter + 1, table := ps.table ++ [(ps.counter, serial_no)] }
  else ps

/-- The req_ids actually deleted by a retirement loop over a candidate
list: exactly the candidates whose history write succeeds. -/
def deletedOf (env : Env) (cs : List Candidate) : List Nat :=
  (cs.filter (fun c => env.historyWriteOk c.req c.current_location)).map
    (fun c => c.req.req_id)

/-! Helper lemmas about the candidate computation and the retirement loop. -/

/-- Unfolding of a successful candidate test. -/
lemma candidate_of_eq_some {env : Env} {a : ActiveRequest} {c : Candidate}
    (h : candidate_of env a = some c) :
    c.req = a ∧ a.request_type ≠ "PUT_BACK" ∧
    env.locationOf a.serial_no = some c.current_location ∧
    c.current_location ≠ "" ∧ c.current_location ∈ env.prod_locations := by
  by_cases hput : a.request_type == "PUT_BACK"
  · simp [candidate_of, hput] at h
  cases hloc : env.locationOf a.serial_no with
  | none =>
    simp [candidate_of, check_container_current_location, hput, hloc] at h
  | some loc =>
    by_cases hemp : loc == ""
    · simp [candidate_of, check_container_current_location, hput, hloc, hemp] at h
    by_cases hmem : env.prod_locations.contains loc
    · have he : candidate_of env a = some ⟨a, loc⟩ := by
        simp [candidate_of, check_container_current_location, hput, hloc, hemp,
          hmem, List.elem_iff.mp hmem]
      rw [he] at h
      have hc : Candidate.mk a loc = c := Option.some_inj.mp h
      subst hc
      exact ⟨rfl, by simpa using hput, rfl, by simpa using hemp,
        List.elem_iff.mp hmem⟩
    · have hmem2 : loc ∉ env.prod_locations := fun hm => hmem (List.elem_iff.mpr hm)
      simp [candidate_of, check_container_current_location, hput, hloc, hemp,
        hmem2] at h

/-- What membership in the candidate list implies. -/
lemma mem_candidates {env : Env} {reqs : List ActiveRequest} {c : Candidate}
    (h : c ∈ candidates env reqs) :
    c.req ∈ reqs ∧ c.req.request_type ≠ "PUT_BACK" ∧
    env.locationOf c.req.serial_no = some c.current_location ∧
    c.current_location ≠ "" ∧ c.current_location ∈ env.prod_locations := by
  obtain ⟨a, ha, hc⟩ := List.mem_filterMap.mp h
  obtain ⟨hreq, h1, h2, h3, h4⟩ := candidate_of_eq_some hc
  subst hreq
  exact ⟨ha, h1, h2, h3, h4⟩

/-- With an empty production list nothing is ever flagged. -/
lemma candidates_prod_empty {env : Env} (h : env.prod_locations = [])
    (reqs : List ActiveRequest) : candidates env reqs = [] := by
  rw [List.eq_nil_iff_forall_not_mem]
  intro c hc
  have hmem := (mem_candidates hc).2.2.2.2
  rw [h] at hmem
  exact absurd hmem (List.not_mem_nil _)

/-- Candidate evaluation commutes with filtering the request list. -/
lemma candidates_filter (env : Env) (p : ActiveRequest → Bool)
    (reqs : List ActiveRequest) :
    candidates env (reqs.filter p) =
      (candidates env reqs).filter (fun c => p c.req) := by
  induction reqs with
  | nil => rfl
  | cons r t ih =>
    by_cases hp : p r
    · rw [List.filter_cons_of_pos hp]
      unfold candidates
      rw [List.filterMap_cons, List.filterMap_cons]
      cases hc : candidate_of env r with
      | none => exact ih
      | some c =>
        have hcr : c.req = r := (candidate_of_eq_some hc).1
        rw [List.filter_cons_of_pos (by simpa [hcr] using hp)]
        exact congrArg (c :: ·) ih
    · rw [List.filter_cons_of_neg hp]
      unfold candidates
      rw [List.filterMap_cons]
      cases hc : candidate_of env r with
      | none => exact ih
      | some c =>
        have hcr : c.req = r := (candidate_of_eq_some hc).1
        rw [List.filter_cons_of_neg (by simpa [hcr] using hp)]
        exact ih

/-- The deletions performed by the retirement loop depend only on the
candidate list: exactly the candidates whose history write succeeds. -/
lemma retire_loop_deleted (env : Env) (now : Int) (ft : String)
    (cs : List Candidate) :
    ∀ reqs, (retire_loop env now ft cs reqs).deleted = deletedOf env cs := by
  induction cs with
  | nil => intro reqs; rfl
  | cons c cs ih =>
    intro reqs
    by_cases hw : env.historyWriteOk c.req c.current_location <;>
      simp [retire_loop, hw, deletedOf, ih]

/-- The history rows written by the retirement loop. -/
lemma retire_loop_newHistory (env : Env) (now : Int) (ft : String)
    (cs : List Candidate) :
    ∀ reqs, (retire_loop env now ft cs reqs).newHistory =
      (cs.filter (fun c => env.historyWriteOk c.req c.current_location)).map
        (fun c => log_request_to_history_record c.req c.current_location ft now) := by
  induction cs with
  | nil => intro reqs; rfl
  | cons c cs ih =>
    intro reqs
    by_cases hw : env.historyWriteOk c.req c.current_location <;>
      simp [retire_loop, hw, ih]

/-- The per-item error messages accumulated by the retirement loop. -/
lemma retire_loop_errors (env : Env) (now : Int) (ft : String)
    (cs : List Candidate) :
    ∀ reqs, (retire_loop env now ft cs reqs).errors =
      (cs.filter (fun c => !(env.historyWriteOk c.req c.current_location))).map
        (fun c => "Failed to log container " ++ c.req.serial_no ++
          " to history, skipping deletion") := by
  induction cs with
  | nil => intro reqs; rfl
  | cons c cs ih =>
    intro reqs
    by_cases hw : env.historyWriteOk c.req c.current_location <;>
      simp [retire_loop, hw, ih]

/-- The surviving request rows after the retirement loop: everything
whose req_id is not among the performed deletions. -/
lemma retire_loop_requests (env : Env) (now : Int) (ft : String)
    (cs : List Candidate) :
    ∀ reqs, (retire_loop env now ft cs reqs).requests =
      reqs.filter (fun r => !((deletedOf env cs).contains r.req_id)) := by
  induction cs with
  | nil =>
    intro reqs
    simp [retire_loop, deletedOf]
  | cons c cs ih =>
    intro reqs
    by_cases hw : env.historyWriteOk c.req c.current_location
    · have hd : deletedOf env (c :: cs) = c.req.req_id :: deletedOf env cs := by
        simp [deletedOf, hw]
      simp only [retire_loop, hw, if_true]
      rw [ih, List.filter_filter, hd]
      apply List.filter_congr
      intro r _
      rw [List.contains_cons, Bool.not_or]
      exact Bool.and_comm _ _
    · have hd : deletedOf env (c :: cs) = deletedOf env cs := by
        simp [deletedOf, hw]
      simp only [retire_loop, hw, Bool.false_eq_true, if_false]
      rw [ih, hd]

/-- A duplicate-free image list makes the mapped function injective on
the list members. -/
lemma map_nodup_inj_on {α β : Type} {f : α → β} {l : List α}
    (h : (l.map f).Nodup) :
    ∀ a ∈ l, ∀ b ∈ l, f a = f b → a = b := by
  induction l with
  | nil => intro a ha; exact absurd ha (List.not_mem_nil a)
  | cons x t ih =>
    rw [List.map_cons, List.nodup_cons] at h
    intro a ha b hb hfe
    rcases List.mem_cons.mp ha with ha1 | ha1 <;>
      rcases List.mem_cons.mp hb with hb1 | hb1
    · rw [ha1, hb1]
    · exfalso
      apply h.1
      rw [ha1] at hfe
      rw [hfe]
      exact List.mem_map_of_mem f hb1
    · exfalso
      apply h.1
      rw [hb1] at hfe
      rw [← hfe]
      exact List.mem_map_of_mem f ha1
    · exact ih h.2 a ha1 b hb1 hfe

/-- Membership of a req_id in the performed-deletion list. -/
lemma mem_deletedOf {env : Env} {cs : List Candidate} {id : Nat}
    (h : id ∈ deletedOf env cs) :
    ∃ c ∈ cs, env.historyWriteOk c.req c.current_location = true ∧
      c.req.req_id = id := by
  obtain ⟨c, hc, hid⟩ := List.mem_map.mp h
  obtain ⟨hcs, hw⟩ := List.mem_filter.mp hc
  exact ⟨c, hcs, hw, hid⟩

/-- Branch lemma: scheduled pass with an empty production list. -/
lemma auto_prod_empty {env : Env} (h : env.prod_locations = []) (now : Int)
    (st : DbState) :
    automated_container_cleanup env now st =
      { state := st, events := [], deleted := [] } := by
  unfold automated_container_cleanup
  rw [if_pos (List.isEmpty_iff.mpr h)]

/-- Branch lemma: scheduled pass with no flagged containers. -/
lemma auto_no_candidates {env : Env} {st : DbState}
    (hp : env.prod_locations ≠ []) (hc : candidates env st.requests = [])
    (now : Int) :
    automated_container_cleanup env now st =
      { state := st
        events := [Event.auto_cleanup_complete st.requests.length 0 []]
        deleted := [] } := by
  unfold automated_container_cleanup
  rw [if_neg (by simpa [List.isEmpty_iff] using hp),
    if_pos (List.isEmpty_iff.mpr hc)]

/-- Branch lemma: scheduled pass hitting the safety check. -/
lemma auto_safety_abort {env : Env} {st : DbState}
    (hc : candidates env st.requests ≠ [])
    (h10 : 10 < (candidates env st.requests).length) (now : Int) :
    automated_container_cleanup env now st =
      { state := st, events := [], deleted := [] } := by
  have hp : env.prod_locations ≠ [] := fun h => hc (candidates_prod_empty h _)
  unfold automated_container_cleanup
  rw [if_neg (by simpa [List.isEmpty_iff] using hp),
    if_neg (by simpa [List.isEmpty_iff] using hc), if_pos h10]

/-- Branch lemma: scheduled pass that reaches the retirement loop. -/
lemma auto_run {env : Env} {st : DbState}
    (hp : env.prod_locations ≠ []) (hc : candidates env st.requests ≠ [])
    (h10 : (candidates env st.requests).length ≤ 10) (now : Int) :
    automated_container_cleanup env now st =
      { state :=
          { requests := st.requests.filter (fun r =>
              !((deletedOf env (candidates env st.requests)).contains r.req_id))
            history := st.history ++
              ((candidates env st.requests).filter
                (fun c => env.historyWriteOk c.req c.current_location)).map
                (fun c => log_request_to_history_record c.req
                  c.current_location "auto_cleanup" now) }
        events := [Event.auto_cleanup_complete st.requests.length
                    (candidates env st.requests).length
                    ((candidates env st.requests).map summary_of)]
        deleted := deletedOf env (candidates env st.requests) } := by
  unfold automated_container_cleanup
  rw [if_neg (by simpa [List.isEmpty_iff] using hp),
    if_neg (by simpa [List.isEmpty_iff] using hc), if_neg (not_lt.mpr h10),
    retire_loop_requests, retire_loop_newHistory, retire_loop_deleted]

/-- Characterization of the manual variant in terms of the candidate
list and the performed deletions. -/
lemma manual_spec (env : Env) (now : Int) (st : DbState) :
    manual_container_cleanup env now st =
      ({ status := "success"
         checked_requests := st.requests.length
         removed_containers := (candidates env st.requests).length
         prod_locations := env.prod_locations
         containers_removed := candidates env st.requests
         errors := ((candidates env st.requests).filter
             (fun c => !(env.historyWriteOk c.req c.current_location))).map
             (fun c => "Failed to log container " ++ c.req.serial_no ++
               " to history, skipping deletion") },
       { requests := st.requests.filter (fun r =>
           !((deletedOf env (candidates env st.requests)).contains r.req_id))
         history := st.history ++
           ((candidates env st.requests).filter
             (fun c => env.historyWriteOk c.req c.current_location)).map
             (fun c => log_request_to_history_record c.req
               c.current_location "manual_cleanup" now) }) := by
  unfold manual_container_cleanup
  rw [retire_loop_requests, retire_loop_newHistory, retire_loop_errors]

/-- If every candidate's history write fails, the scheduled pass deletes
nothing, in every branch. -/
lemma auto_deleted_nil_of_all_fail (env : Env) (now : Int) (st : DbState)
    (h : ∀ c ∈ candidates env st.requests,
      ¬ env.historyWriteOk c.req c.current_location = true) :
    (automated_container_cleanup env now st).deleted = [] := by
  by_cases hp : env.prod_locations = []
  · rw [auto_prod_empty hp now]
  by_cases hc : candidates env st.requests = []
  · rw [auto_no_candidates hp hc now]
  by_cases h10 : 10 < (candidates env st.requests).length
  · rw [auto_safety_abort hc h10 now]
  · rw [auto_run hp hc (not_lt.mp h10) now]
    show deletedOf env (candidates env st.requests) = []
    unfold deletedOf
    rw [List.filter_eq_nil_iff.mpr h, List.map_nil]

/-- A request whose id the deletion list misses survives the row filter. -/
lemma mem_filter_not_deleted {r : ActiveRequest} {reqs : List ActiveRequest}
    {ds : List Nat} (hr : r ∈ reqs) (h : r.req_id ∉ ds) :
    r ∈ reqs.filter (fun x => !(ds.contains x.req_id)) := by
  have hb : ds.contains r.req_id = false := by
    cases hcb : ds.contains r.req_id
    · rfl
    · exact absurd (List.elem_iff.mp hcb) h
  exact List.mem_filter.mpr ⟨hr, by rw [hb]; rfl⟩

/-- Under duplicate-free req_ids, a request that no candidate equals is
never targeted by a DELETE. -/
lemma not_deleted_of_no_candidate {env : Env} {st : DbState}
    (hids : (st.requests.map (fun r => r.req_id)).Nodup)
    {r : ActiveRequest} (hr : r ∈ st.requests)
    (hnc : ∀ c ∈ candidates env st.requests, c.req ≠ r) :
    r.req_id ∉ deletedOf env (candidates env st.requests) := by
  intro hmem
  obtain ⟨c, hcm, hw, hcid⟩ := mem_deletedOf hmem
  have hcreq : c.req ∈ st.requests := (mem_candidates hcm).1
  have : c.req = r := map_nodup_inj_on hids c.req hcreq r hr hcid
  exact hnc c hcm this

/-- Two consecutive passes against one fixed environment: the second
performs no deletions. -/
lemma second_pass_nil_same_env (env : Env) (now1 now2 : Int)
    (st : DbState) :
    (automated_container_cleanup env now2
      (automated_container_cleanup env now1 st).state).deleted = [] := by
  by_cases hp : env.prod_locations = []
  · rw [auto_prod_empty hp now1, auto_prod_empty hp now2]
  by_cases hc : candidates env st.requests = []
  · rw [auto_no_candidates hp hc now1]
    rw [auto_no_candidates hp hc now2]
  by_cases h10 : 10 < (candidates env st.requests).length
  · rw [auto_safety_abort hc h10 now1]
    rw [auto_safety_abort hc h10 now2]
  · rw [auto_run hp hc (not_lt.mp h10) now1]
    apply auto_deleted_nil_of_all_fail
    intro c hcm hw
    have hc2 : candidates env (st.requests.filter (fun r =>
        !((deletedOf env (candidates env st.requests)).contains r.req_id))) =
        (candidates env st.requests).filter (fun c =>
          !((deletedOf env (candidates env st.requests)).contains c.req.req_id)) :=
      candidates_filter env _ st.requests
    dsimp only at hcm
    rw [hc2] at hcm
    obtain ⟨hc1m, hnd⟩ := List.mem_filter.mp hcm
    have hmm : c.req.req_id ∈ deletedOf env (candidates env st.requests) :=
      List.mem_map_of_mem _ (List.mem_filter.mpr ⟨hc1m, hw⟩)
    have hct : (deletedOf env (candidates env st.requests)).contains
        c.req.req_id = true := List.elem_iff.mpr hmm
    rw [hct] at hnd
    exact absurd hnd (by simp)

/-- C9 (amended): running the scheduled reconciliation pass twice in
succession, with the oracle's reported locations and production set
unchanged between the runs AND the history store's per-record write
behaviour also unchanged, yields zero deletions on the second run.  The
extra write-behaviour hypothesis is necessary: a candidate whose
history write failed on the first run stays in REQUESTS and is retried
on the next pass, so the second run deletes it as soon as the write
succeeds. -/
theorem second_pass_performs_no_deletions (env1 env2 : Env)
    (now1 now2 : Int) (st : DbState)
    (hprod : env1.prod_locations = env2.prod_locations)
    (hloc : env1.locationOf = env2.locationOf)
    (hwrite : env1.historyWriteOk = env2.historyWriteOk) :
    (automated_container_cleanup env2 now2
      (automated_container_cleanup env1 now1 st).state).deleted = [] := by
  have henv : env1 = env2 := by
    cases env1
    cases env2
    cases hprod
    cases hloc
    cases hwrite
    rfl
  rw [henv]
  exact second_pass_nil_same_env env2 now1 now2 st

/-- C3: a request with request_type PUT_BACK is never deleted by either
reconciliation pass, regardless of the location the oracle reports:
no DELETE targets its req_id, and it survives in the REQUESTS table of
both passes (assuming the fetched rows carry distinct req_ids). -/
theorem put_back_requests_never_deleted (env : Env) (now : Int)
    (st : DbState) (hids : (st.requests.map (fun r => r.req_id)).Nodup)
    (r : ActiveRequest) (hr : r ∈ st.requests)
    (hput : r.request_type = "PUT_BACK") :
    r.req_id ∉ deletedOf env (candidates env st.requests) ∧
    r ∈ (automated_container_cleanup env now st).state.requests ∧
    r ∈ (manual_container_cleanup env now st).2.requests := by
  have hnc : ∀ c ∈ candidates env st.requests, c.req ≠ r := by
    intro c hcm hceq
    exact (mem_candidates hcm).2.1 (hceq ▸ hput)
  have hnd := not_deleted_of_no_candidate hids hr hnc
  refine ⟨hnd, ?_, ?_⟩
  · by_cases hp : env.prod_locations = []
    · rw [auto_prod_empty hp now]; exact hr
    by_cases hc : candidates env st.requests = []
    · rw [auto_no_candidates hp hc now]; exact hr
    by_cases h10 : 10 < (candidates env st.requests).length
    · rw [auto_safety_abort hc h10 now]; exact hr
    · rw [auto_run hp hc (not_lt.mp h10) now]
      exact mem_filter_not_deleted hr hnd
  · rw [manual_spec env now st]
    exact mem_filter_not_deleted hr hnd

/-- C5: a non-PUT_BACK request whose per-item oracle lookup fails is left
untouched by both cleanup passes: it never becomes a candidate, no
DELETE targets its req_id, and it survives in the REQUESTS table of both
passes (assuming the fetched rows carry distinct req_ids). -/
theorem unknown_location_left_untouched (env : Env) (now : Int)
    (st : DbState) (hids : (st.requests.map (fun r => r.req_id)).Nodup)
    (r : ActiveRequest) (hr : r ∈ st.requests)
    (hloc : env.locationOf r.serial_no = none) :
    (∀ c ∈ candidates env st.requests, c.req ≠ r) ∧
    r.req_id ∉ deletedOf env (candidates env st.requests) ∧
    r ∈ (automated_container_cleanup env now st).state.requests ∧
    r ∈ (manual_container_cleanup env now st).2.requests := by
  have hnc : ∀ c ∈ candidates env st.requests, c.req ≠ r := by
    intro c hcm hceq
    have hsome := (mem_candidates hcm).2.2.1
    rw [hceq, hloc] at hsome
    exact absurd hsome (by simp)
  have hnd := not_deleted_of_no_candidate hids hr hnc
  refine ⟨hnc, hnd, ?_, ?_⟩
  · by_cases hp : env.prod_locations = []
    · rw [auto_prod_empty hp now]; exact hr
    by_cases hc : candidates env st.requests = []
    · rw [auto_no_candidates hp hc now]; exact hr
    by_cases h10 : 10 < (candidates env st.requests).length
    · rw [auto_safety_abort hc h10 now]; exact hr
    · rw [auto_run hp hc (not_lt.mp h10) now]
      exact mem_filter_not_deleted hr hnd
  · rw [manual_spec env now st]
    exact mem_filter_not_deleted hr hnd

/-- C8: for every history row built by the audit writer,
fulfillment_duration_minutes equals the floor of
(fulfilled_time - req_time) divided by 60 seconds, and is nonnegative,
under the precondition req_time ≤ fulfilled_time (both UTC instants). -/
theorem duration_minutes_is_floor (r : ActiveRequest)
    (current_location fulfillment_type : String) (now : Int)
    (h : r.req_time ≤ now) :
    (log_request_to_history_record r current_location fulfillment_type
        now).fulfillment_duration_minutes =
      Int.fdiv ((log_request_to_history_record r current_location
          fulfillment_type now).fulfilled_time -
        (log_request_to_history_record r current_location fulfillment_type
          now).req_time) 60 ∧
    0 ≤ (log_request_to_history_record r current_location fulfillment_type
        now).fulfillment_duration_minutes := by
  have hnn : (0 : Int) ≤ now - r.req_time := sub_nonneg.mpr h
  constructor
  · show Int.tdiv (now - r.req_time) 60 = Int.fdiv (now - r.req_time) 60
    rw [Int.tdiv_eq_ediv hnn (by norm_num), Int.fdiv_eq_ediv _ (by norm_num)]
  · exact Int.tdiv_nonneg hnn (by norm_num)

/-- C1 (amended): every req_id deleted by the scheduled pass or by the
manual cleanup pass has a matching history row (same req_id, the
serial_no of the deleted request, stamped with that pass's fulfillment
type) in the resulting history table — in the embedding the write and
the delete happen in the same retirement step, the write first, exactly
as in the source.  The manual-deletion endpoint, by contrast, attempts
the history write first but removes the request even when the write
fails, leaving the history table unchanged in that case. -/
theorem deletion_audit_policy (env : Env) (now : Int) (st : DbState) :
    (∀ id ∈ (automated_container_cleanup env now st).deleted,
      ∃ r ∈ st.requests, r.req_id = id ∧
        ∃ rec ∈ (automated_container_cleanup env now st).state.history,
          rec.req_id = id ∧ rec.serial_no = r.serial_no ∧
          rec.fulfillment_type = "auto_cleanup") ∧
    (∀ id ∈ deletedOf env (candidates env st.requests),
      ∃ r ∈ st.requests, r.req_id = id ∧
        ∃ rec ∈ (manual_container_cleanup env now st).2.history,
          rec.req_id = id ∧ rec.serial_no = r.serial_no ∧
          rec.fulfillment_type = "manual_cleanup") ∧
    (∀ serial r, st.requests.find? (fun x => x.serial_no == serial) = some r →
      r ∉ (delete_request env now st serial).1.requests ∧
      (env.historyWriteOk r "Unknown (Manual Delete)" = true →
        ∃ rec ∈ (delete_request env now st serial).1.history,
          rec.req_id = r.req_id ∧ rec.serial_no = r.serial_no ∧
          rec.fulfillment_type = "manual_delete") ∧
      (env.historyWriteOk r "Unknown (Manual Delete)" = false →
        (delete_request env now st serial).1.history = st.history)) := by
  refine ⟨?_, ?_, ?_⟩
  · intro id hid
    by_cases hp : env.prod_locations = []
    · rw [auto_prod_empty hp now] at hid; exact absurd hid (by simp)
    by_cases hc : candidates env st.requests = []
    · rw [auto_no_candidates hp hc now] at hid; exact absurd hid (by simp)
    by_cases h10 : 10 < (candidates env st.requests).length
    · rw [auto_safety_abort hc h10 now] at hid; exact absurd hid (by simp)
    · rw [auto_run hp hc (not_lt.mp h10) now] at hid ⊢
      obtain ⟨c, hcm, hw, hcid⟩ := mem_deletedOf hid
      refine ⟨c.req, (mem_candidates hcm).1, hcid, ?_⟩
      refine ⟨log_request_to_history_record c.req c.current_location
        "auto_cleanup" now, ?_, hcid, rfl, rfl⟩
      exact List.mem_append_right _
        (List.mem_map_of_mem _ (List.mem_filter.mpr ⟨hcm, hw⟩))
  · intro id hid
    obtain ⟨c, hcm, hw, hcid⟩ := mem_deletedOf hid
    rw [manual_spec env now st]
    refine ⟨c.req, (mem_candidates hcm).1, hcid, ?_⟩
    refine ⟨log_request_to_history_record c.req c.current_location
      "manual_cleanup" now, ?_, hcid, rfl, rfl⟩
    exact List.mem_append_right _
      (List.mem_map_of_mem _ (List.mem_filter.mpr ⟨hcm, hw⟩))
  · intro serial r hfind
    have hser := List.find?_some hfind
    unfold delete_request
    rw [hfind]
    refine ⟨?_, ?_, ?_⟩
    · intro hmem
      have := (List.mem_filter.mp hmem).2
      rw [hser] at this
      exact absurd this (by simp)
    · intro hok
      dsimp only
      rw [if_pos hok]
      exact ⟨log_request_to_history_record r "Unknown (Manual Delete)"
        "manual_delete" now,
        List.mem_append_right _ (List.mem_singleton.mpr rfl), rfl, rfl, rfl⟩
    · intro hfail
      dsimp only
      rw [if_neg (by rw [hfail]; exact Bool.false_ne_true)]

/-- C2 (amended): when containers were flagged and the candidate count
exceeds the ceiling of 10, the scheduled pass deletes nothing and
mutates nothing — but it also emits no event at all: the safety abort is
only logged, and no alert-type notification carrying the candidate count
is sent. -/
theorem safety_abort_deletes_nothing_and_emits_nothing (env : Env)
    (now : Int) (st : DbState) (hc : candidates env st.requests ≠ [])
    (h10 : 10 < (candidates env st.requests).length) :
    automated_container_cleanup env now st =
      { state := st, events := [], deleted := [] } :=
  auto_safety_abort hc h10 now

/-- C4 (amended): when the production-location fetch fails or returns an
empty set, the whole scheduled pass is aborted with no mutation of
either table and no deletions — but no error event is emitted: the
failure is only logged, and the error notification exists only in the
top-level exception handler, which this path never reaches. -/
theorem empty_prod_locations_abort_is_silent (env : Env) (now : Int)
    (st : DbState) (h : env.prod_locations = []) :
    automated_container_cleanup env now st =
      { state := st, events := [], deleted := [] } :=
  auto_prod_empty h now st

/-- C7 (amended): the completion event of a scheduled pass that reaches
its notification reports the fetched-request count as checked, and — as
the removed count and the removed-item list — the full candidate count
and all candidate summaries (serial, observed location, deliver-to),
including candidates whose history write failed and whose delete was
therefore skipped; the req_ids actually deleted are only the candidates
whose history write succeeded. -/
theorem completion_event_reports_candidate_count (env : Env) (now : Int)
    (st : DbState) (hp : env.prod_locations ≠ [])
    (h10 : (candidates env st.requests).length ≤ 10) :
    (automated_container_cleanup env now st).events =
      [Event.auto_cleanup_complete st.requests.length
        (candidates env st.requests).length
        ((candidates env st.requests).map summary_of)] ∧
    (automated_container_cleanup env now st).deleted =
      deletedOf env (candidates env st.requests) := by
  by_cases hc : candidates env st.requests = []
  · rw [auto_no_candidates hp hc now]
    constructor
    · simp [hc]
    · simp [hc, deletedOf]
  · rw [auto_run hp hc h10 now]
    exact ⟨rfl, rfl⟩

/-- C6 (amended): the manual variant evaluates the same candidate set as
the scheduled pass and applies the same history-before-delete
retirement, accumulating per-item history failures into the returned
errors, and when the scheduled pass would also retire (nonempty
production list, candidate count within the ceiling) both leave the
REQUESTS table identical — but the manual variant applies no safety
gate: its row filter holds for every candidate count. -/
theorem manual_variant_same_steps_without_gate (env : Env) (now : Int)
    (st : DbState) :
    (manual_container_cleanup env now st).1.checked_requests =
      st.requests.length ∧
    (manual_container_cleanup env now st).1.containers_removed =
      candidates env st.requests ∧
    (manual_container_cleanup env now st).2.requests =
      st.requests.filter (fun r =>
        !((deletedOf env (candidates env st.requests)).contains r.req_id)) ∧
    (manual_container_cleanup env now st).1.errors =
      ((candidates env st.requests).filter
        (fun c => !(env.historyWriteOk c.req c.current_location))).map
        (fun c => "Failed to log container " ++ c.req.serial_no ++
          " to history, skipping deletion") ∧
    (env.prod_locations ≠ [] → (candidates env st.requests).length ≤ 10 →
      (manual_container_cleanup env now st).2.requests =
        (automated_container_cleanup env now st).state.requests) := by
  rw [manual_spec env now st]
  refine ⟨rfl, rfl, rfl, rfl, ?_⟩
  intro hp h10
  by_cases hc : candidates env st.requests = []
  · rw [auto_no_candidates hp hc now]
    simp [hc, deletedOf]
  · rw [auto_run hp hc h10 now]

/-! Concrete fixtures used by the closed evaluations below. -/

/-- A plain outstanding pickup request. -/
def reqA : ActiveRequest :=
  { req_id := 7
    serial_no := "S1"
    part_no := "P1"
    revision := "A"
    quantity := 4
    location := "WH-1"
    deliver_to := "WC-1"
    req_time := 0
    request_type := "PICK_UP" }

/-- A put-back request. -/
def reqPB : ActiveRequest :=
  { reqA with req_id := 8, serial_no := "S2", request_type := "PUT_BACK" }

/-- A table with the single pickup request. -/
def stOne : DbState := { requests := [reqA], history := [] }

/-- A table with the single put-back request. -/
def stPB : DbState := { requests := [reqPB], history := [] }

/-- Oracle reporting every container in production, history writes
succeeding. -/
def envProd : Env :=
  { prod_locations := ["PROD-A"]
    locationOf := fun _ => some "PROD-A"
    historyWriteOk := fun _ _ => true }

/-- Oracle reporting every container in production, history writes
failing. -/
def envFailWrite : Env :=
  { prod_locations := ["PROD-A"]
    locationOf := fun _ => some "PROD-A"
    historyWriteOk := fun _ _ => false }

/-- Oracle that cannot locate any container. -/
def envUnknown : Env :=
  { prod_locations := ["PROD-A"]
    locationOf := fun _ => none
    historyWriteOk := fun _ _ => true }

/-- A failed or empty production-location fetch. -/
def envNoProd : Env :=
  { prod_locations := []
    locationOf := fun _ => some "PROD-A"
    historyWriteOk := fun _ _ => true }

/-- The i-th of a family of distinct pickup requests. -/
def mkReq (i : Nat) : ActiveRequest :=
  { reqA with req_id := i, serial_no := "S" ++ toString i }

/-- A table with eleven distinct pickup requests, one over the safety
ceiling when all of them resolve to a production location. -/
def stEleven : DbState := { requests := (List.range 11).map mkReq, history := [] }

/-- C1 (counterexample): with a failing history write, the
manual-deletion endpoint still removes the request while the history
table stays empty — a deletion path that removes a request without any
preceding audit record, contradicting the claim as stated. -/
theorem delete_request_removes_without_audit_record :
    (delete_request envFailWrite 0 stOne "S1").1.requests = [] ∧
    (delete_request envFailWrite 0 stOne "S1").1.history = [] := by
  decide

/-- C2 (counterexample): with eleven flagged containers the scheduled
pass deletes nothing but also emits no event at all — in particular no
alert-type event carrying the candidate count, contradicting the claim
as stated. -/
theorem safety_abort_emits_no_alert_event :
    (candidates envProd stEleven.requests).length = 11 ∧
    (automated_container_cleanup envProd 0 stEleven).deleted = [] ∧
    (automated_container_cleanup envProd 0 stEleven).events = [] := by
  decide

/-- C4 (counterexample): with an empty production-location fetch the
scheduled pass aborts without mutation but emits no error event,
contradicting the claim as stated. -/
theorem empty_prod_abort_emits_no_error_event :
    envNoProd.prod_locations = [] ∧
    (automated_container_cleanup envNoProd 0 stOne).state = stOne ∧
    (automated_container_cleanup envNoProd 0 stOne).events = [] := by
  decide

/-- C6 (counterexample): with eleven flagged containers the scheduled
pass aborts (its safety gate) and leaves the table unchanged, while the
manual variant deletes all eleven — so the manual variant does not
follow the safety-gate step, contradicting the claim as stated. -/
theorem manual_cleanup_ignores_safety_ceiling :
    (automated_container_cleanup envProd 0 stEleven).state.requests =
      stEleven.requests ∧
    (manual_container_cleanup envProd 0 stEleven).2.requests = [] := by
  decide

/-- C7 (counterexample): when the single candidate's history write fails
and its delete is skipped, the completion event still reports one
removed container and lists it, while nothing was deleted and the
request is still present — contradicting the claim as stated. -/
theorem completion_event_counts_skipped_candidate :
    (automated_container_cleanup envFailWrite 0 stOne).events =
      [Event.auto_cleanup_complete 1 1
        [{ serial_no := "S1", current_location := "PROD-A",
           deliver_to := "WC-1" }]] ∧
    (automated_container_cleanup envFailWrite 0 stOne).deleted = [] ∧
    (automated_container_cleanup envFailWrite 0 stOne).state.requests =
      stOne.requests := by
  decide

/-- C9 (counterexample): two consecutive scheduled passes whose oracle
state is identical (same production list, same per-serial answers) but
whose history-write behaviour differs — the INSERT fails during the
first run and succeeds during the second: the first run deletes nothing
and leaves the flagged request in place, and the second run deletes it
(req_id 7), so the second run is not deletion-free, contradicting the
claim as stated. -/
theorem second_run_deletes_retried_candidate :
    envFailWrite.prod_locations = envProd.prod_locations ∧
    envFailWrite.locationOf = envProd.locationOf ∧
    (automated_container_cleanup envFailWrite 0 stOne).deleted = [] ∧
    (automated_container_cleanup envProd 0
      (automated_container_cleanup envFailWrite 0 stOne).state).deleted =
      [7] := by
  refine ⟨rfl, rfl, ?_, ?_⟩ <;> decide

/-- C10: req_id assignment restarts from 0 on every process start, so
after a restart the next submission reuses an id already persisted for a
different request: submitting serial A, restarting, then submitting
serial B yields two rows that share req_id 0. -/
theorem req_id_reused_after_process_restart :
    (submit_request (process_start
        (submit_request (process_start []) "A" true).table) "B" true).table =
      [(0, "A"), (0, "B")] ∧
    ¬ ((submit_request (process_start
        (submit_request (process_start []) "A" true).table) "B" true).table.map
        Prod.fst).Nodup := by
  decide

/-- Witness: a put-back request that the oracle places in a production
location survives both passes untouched. -/
theorem put_back_requests_never_deleted_witness :
    reqPB.req_id ∉ deletedOf envProd (candidates envProd stPB.requests) ∧
    reqPB ∈ (automated_container_cleanup envProd 0 stPB).state.requests ∧
    reqPB ∈ (manual_container_cleanup envProd 0 stPB).2.requests :=
  put_back_requests_never_deleted envProd 0 stPB (by decide) reqPB
    (by decide) (by decide)

/-- Witness: a request the oracle cannot locate survives both passes
untouched. -/
theorem unknown_location_left_untouched_witness :
    reqA.req_id ∉ deletedOf envUnknown (candidates envUnknown stOne.requests) ∧
    reqA ∈ (automated_container_cleanup envUnknown 0 stOne).state.requests ∧
    reqA ∈ (manual_container_cleanup envUnknown 0 stOne).2.requests :=
  (unknown_location_left_untouched envUnknown 0 stOne (by decide) reqA
    (by decide) rfl).2

/-- Witness: a request submitted at instant 0 and retired at instant 90
gets the floor duration, one minute, and it is nonnegative. -/
theorem duration_minutes_is_floor_witness :
    (log_request_to_history_record reqA "PROD-A" "auto_cleanup"
        90).fulfillment_duration_minutes =
      Int.fdiv ((log_request_to_history_record reqA "PROD-A" "auto_cleanup"
          90).fulfilled_time -
        (log_request_to_history_record reqA "PROD-A" "auto_cleanup"
          90).req_time) 60 ∧
    0 ≤ (log_request_to_history_record reqA "PROD-A" "auto_cleanup"
        90).fulfillment_duration_minutes :=
  duration_minutes_is_floor reqA "PROD-A" "auto_cleanup" 90 (by decide)

/-- Witness: the one req_id the scheduled pass deletes in the concrete
run has a matching auto_cleanup history row in the resulting table. -/
theorem deletion_audit_policy_witness :
    ∃ r ∈ stOne.requests, r.req_id = 7 ∧
      ∃ rec ∈ (automated_container_cleanup envProd 0 stOne).state.history,
        rec.req_id = 7 ∧ rec.serial_no = r.serial_no ∧
        rec.fulfillment_type = "auto_cleanup" :=
  (deletion_audit_policy envProd 0 stOne).1 7 (by decide)

/-- Witness: the eleven-candidate run takes the silent safety abort. -/
theorem safety_abort_deletes_nothing_and_emits_nothing_witness :
    automated_container_cleanup envProd 0 stEleven =
      { state := stEleven, events := [], deleted := [] } :=
  safety_abort_deletes_nothing_and_emits_nothing envProd 0 stEleven
    (by decide) (by decide)

/-- Witness: the empty-production-list run aborts silently. -/
theorem empty_prod_locations_abort_is_silent_witness :
    automated_container_cleanup envNoProd 0 stOne =
      { state := stOne, events := [], deleted := [] } :=
  empty_prod_locations_abort_is_silent envNoProd 0 stOne rfl

/-- Witness: the failed-write run reports its candidate in the
completion event even though nothing was deleted. -/
theorem completion_event_reports_candidate_count_witness :
    (automated_container_cleanup envFailWrite 0 stOne).events =
      [Event.auto_cleanup_complete stOne.requests.length
        (candidates envFailWrite stOne.requests).length
        ((candidates envFailWrite stOne.requests).map summary_of)] ∧
    (automated_container_cleanup envFailWrite 0 stOne).deleted =
      deletedOf envFailWrite (candidates envFailWrite stOne.requests) :=
  completion_event_reports_candidate_count envFailWrite 0 stOne
    (by decide) (by decide)

/-- Witness: on the one-candidate run within the ceiling, the manual
variant checks the same count and leaves the same REQUESTS table as the
scheduled pass. -/
theorem manual_variant_same_steps_without_gate_witness :
    (manual_container_cleanup envProd 0 stOne).1.checked_requests =
      stOne.requests.length ∧
    (manual_container_cleanup envProd 0 stOne).2.requests =
      (automated_container_cleanup envProd 0 stOne).state.requests := by
  have h := manual_variant_same_steps_without_gate envProd 0 stOne
  exact ⟨h.1, h.2.2.2.2 (by decide) (by decide)⟩

/-- Witness: two runs against the same concrete environment, the second
deleting nothing. -/
theorem second_pass_performs_no_deletions_witness :
    (automated_container_cleanup envProd 0
      (automated_container_cleanup envProd 0 stOne).state).deleted = [] :=
  second_pass_performs_no_deletions envProd envProd 0 0 stOne rfl rfl rfl
